import Mathlib

/- Formal model of the Stylus rock-paper-scissors contracts of this
   repository (src/lib.rs, the active entrypoint, and src/borrar_2.rs, the
   commit-reveal variant), as a shallow embedding: contract storage is a
   record, each external function is a state transformer returning an
   explicit outcome together with the list of eth transfers it performed,
   and the host primitives (caller identity, attached value, block number,
   keccak256 over the caller address bytes) are explicit parameters.
   Storage values are 256-bit unsigned integers modelled as Nat with
   arithmetic reduced modulo 2^256 where the Rust U256 operations wrap.
   Returning Err from a Stylus external function reverts all storage
   writes, so error outcomes carry no state: the state is unchanged. -/

namespace RPSModel

/-- Bound of the 256-bit unsigned integers used for all storage values. -/
def U256LIM : Nat := 2 ^ 256

/-- Reduction modulo 2^256, applied where the Rust U256 arithmetic wraps. -/
def u256 (n : Nat) : Nat := n % U256LIM

/-- Pointwise update of a storage mapping, as performed by mapping insert. -/
def updMap (m : Nat → Nat) (i v : Nat) : Nat → Nat :=
  fun j => if j = i then v else m j

/-- Outcome of an external call: ok with the new state and the eth transfers
made during the call, err with the revert message (storage rolled back), or
fatal for a Rust panic aborting execution (the panicking From conversion). -/
inductive Outcome (α : Type) where
  | ok : α → Outcome α
  | err : String → Outcome α
  | fatal : String → Outcome α

/-- Host-supplied data of the current call: msg sender, msg value, and the
current block number. -/
structure CallEnv where
  sender : Nat
  value : Nat
  blockNumber : Nat

/-- Choice enum shared by both contracts: None, Rock, Paper, Scissors. -/
inductive Choice where
  | none
  | rock
  | paper
  | scissors
deriving DecidableEq

/-- Conversion from a stored integer to Choice, following the From impls in
src/lib.rs lines 39-53 and src/borrar_2.rs lines 22-32: 0..3 decode to the
four variants, and the panic branch on any other value is Option.none. -/
def Choice.fromU256? (v : Nat) : Option Choice :=
  if v = 0 then Option.some Choice.none
  else if v = 1 then Option.some Choice.rock
  else if v = 2 then Option.some Choice.paper
  else if v = 3 then Option.some Choice.scissors
  else Option.none

/-- Numeric encoding of a Choice, following the reverse From impls. -/
def Choice.toU256 : Choice → Nat
  | Choice.none => 0
  | Choice.rock => 1
  | Choice.paper => 2
  | Choice.scissors => 3

/-- Storage of the entrypoint contract in src/lib.rs (sol_storage block at
lines 70-80). -/
structure LibState where
  player_balances : Nat → Nat
  player_choices : Nat → Nat
  player_addresses : Nat → Nat
  bet : Nat
  stage : Nat
  locked : Bool

/-- Fresh all-zero storage for the entrypoint contract. -/
def zeroLib : LibState :=
  { player_balances := fun _ => 0
    player_choices := fun _ => 0
    player_addresses := fun _ => 0
    bet := 0
    stage := 0
    locked := false }

/-- Function new of src/lib.rs lines 87-92: sets the bet, resets the stage to
0 (FirstCommit) and clears the locked flag; the source always returns Ok. -/
def lib_new (s : LibState) (bet : Nat) : LibState :=
  { s with bet := bet, stage := 0, locked := false }

/-- Function commit of src/lib.rs lines 111-136: payable; rejects when
locked, when the stage is past 1, or when the attached value is below the
bet; refunds any excess over the bet to the sender; then stores the raw
choice argument and the sender address at index stage and increments the
stage. -/
def lib_commit (s : LibState) (env : CallEnv) (choice : Nat) :
    Outcome (LibState × List (Nat × Nat)) :=
  if s.locked then Outcome.err "Contract is locked"
  else
    let player_index := s.stage
    if player_index > 1 then Outcome.err "Invalid stage for commit"
    else if env.value < s.bet then Outcome.err "Insufficient funds committed"
    else
      let refunds :=
        if env.value > s.bet then [(env.sender, env.value - s.bet)] else []
      Outcome.ok
        ({ s with
            player_choices := updMap s.player_choices player_index choice
            player_addresses := updMap s.player_addresses player_index env.sender
            stage := u256 (player_index + 1) }, refunds)

/-- Function distribute of src/lib.rs lines 139-162: requires stage = 2,
decodes both stored choices with the panicking conversion, transfers twice
the bet to the winner of the fixed cycle, errors with Draw in every other
case, and resets the stage to 0. -/
def lib_distribute (s : LibState) : Outcome (LibState × List (Nat × Nat)) :=
  if s.stage ≠ 2 then Outcome.err "Invalid stage for distribute"
  else
    match Choice.fromU256? (s.player_choices 0) with
    | Option.none => Outcome.fatal "Invalid choice"
    | Option.some c0 =>
      match Choice.fromU256? (s.player_choices 1) with
      | Option.none => Outcome.fatal "Invalid choice"
      | Option.some c1 =>
        match c0, c1 with
        | Choice.rock, Choice.scissors
        | Choice.paper, Choice.rock
        | Choice.scissors, Choice.paper =>
          Outcome.ok ({ s with stage := 0 },
            [(s.player_addresses 0, u256 (s.bet * 2))])
        | Choice.rock, Choice.paper
        | Choice.paper, Choice.scissors
        | Choice.scissors, Choice.rock =>
          Outcome.ok ({ s with stage := 0 },
            [(s.player_addresses 1, u256 (s.bet * 2))])
        | _, _ => Outcome.err "Draw"

/-- Storage of the commit-reveal contract in src/borrar_2.rs (sol_storage
block at lines 45-59). -/
structure Rps2State where
  player_balances : Nat → Nat
  player_addresses : Nat → Nat
  player_commitments : Nat → Nat
  player_choices : Nat → Nat
  bet : Nat
  deposit : Nat
  revealSpan : Nat
  revealDeadline : Nat
  stage : Nat
  locked : Bool

/-- Fresh all-zero storage for the commit-reveal contract. -/
def zeroRps2 : Rps2State :=
  { player_balances := fun _ => 0
    player_addresses := fun _ => 0
    player_commitments := fun _ => 0
    player_choices := fun _ => 0
    bet := 0
    deposit := 0
    revealSpan := 0
    revealDeadline := 0
    stage := 0
    locked := false }

/-- Function new of src/borrar_2.rs lines 63-70: sets bet, deposit and
revealSpan, resets the stage to 0 and clears the locked flag; always Ok. -/
def rps2_new (s : Rps2State) (bet deposit revealSpan : Nat) : Rps2State :=
  { s with
    bet := bet
    deposit := deposit
    revealSpan := revealSpan
    stage := 0
    locked := false }

/-- Function lock of src/borrar_2.rs lines 72-75. -/
def rps2_lock (s : Rps2State) : Rps2State :=
  { s with locked := true }

/-- Function unlock of src/borrar_2.rs lines 77-87: clears the locked flag
and overwrites the stage and both player slots (address, commitment, choice)
with the supplied snapshot data; the source always returns Ok and performs
no validation. -/
def rps2_unlock (s : Rps2State) (stage : Nat) (p1 p2 : Nat × Nat × Nat) :
    Rps2State :=
  { s with
    locked := false
    stage := stage
    player_addresses := updMap (updMap s.player_addresses 0 p1.1) 1 p2.1
    player_commitments :=
      updMap (updMap s.player_commitments 0 p1.2.1) 1 p2.2.1
    player_choices := updMap (updMap s.player_choices 0 p1.2.2) 1 p2.2.2 }

/-- Function commit of src/borrar_2.rs lines 90-124: payable; rejects when
locked, when the stage is neither 0 nor 1, or when the attached value is
below bet + deposit; refunds the excess over bet + deposit; stores sender,
commitment and choice 0 at the slot of the current stage; advances the stage
to 1 (from 0) or 2 (from 1). -/
def rps2_commit (s : Rps2State) (env : CallEnv) (commitment : Nat) :
    Outcome (Rps2State × List (Nat × Nat)) :=
  if s.locked then Outcome.err "Contract is locked"
  else if s.stage = 0 ∨ s.stage = 1 then
    let player_index : Nat := if s.stage = 0 then 0 else 1
    let commit_amount := u256 (s.bet + s.deposit)
    if env.value < commit_amount then
      Outcome.err "Insufficient funds committed"
    else
      let refunds :=
        if env.value > commit_amount then
          [(env.sender, env.value - commit_amount)]
        else []
      let s1 := { s with
        player_addresses := updMap s.player_addresses player_index env.sender
        player_commitments :=
          updMap s.player_commitments player_index commitment
        player_choices := updMap s.player_choices player_index 0 }
      if s.stage = 0 then Outcome.ok ({ s1 with stage := 1 }, refunds)
      else Outcome.ok ({ s1 with stage := 2 }, refunds)
  else Outcome.err "Invalid stage for commit"

/-- Function reveal of src/borrar_2.rs lines 126-165: rejects when locked or
when the stage is neither 2 nor 3; decodes the choice byte with the
panicking conversion and rejects Choice None; locates the caller slot by
address; then compares keccak256 of the sender address bytes (parameter
keccakAddr) with the stored commitment — the blinding factor parameter is
never used by the source; on success records the numeric choice and either
arms the reveal deadline and moves to stage 3 (from 2) or moves to stage 4
(from 3). -/
def rps2_reveal (keccakAddr : Nat → Nat) (s : Rps2State) (env : CallEnv)
    (choice : Nat) (blinding_factor : Nat) : Outcome Rps2State :=
  if s.locked then Outcome.err "Contract is locked"
  else if s.stage ≠ 2 ∧ s.stage ≠ 3 then Outcome.err "Invalid stage for reveal"
  else
    match Choice.fromU256? choice with
    | Option.none => Outcome.fatal "Invalid choice"
    | Option.some c =>
      if c ≠ Choice.rock ∧ c ≠ Choice.paper ∧ c ≠ Choice.scissors then
        Outcome.err "Invalid choice"
      else
        match (if s.player_addresses 0 = env.sender then Option.some 0
               else if s.player_addresses 1 = env.sender then Option.some 1
               else Option.none : Option Nat) with
        | Option.none => Outcome.err "Unknown player"
        | Option.some player_index =>
          if keccakAddr env.sender ≠ s.player_commitments player_index then
            Outcome.err "Invalid hash"
          else
            let s1 := { s with
              player_choices :=
                updMap s.player_choices player_index (Choice.toU256 c) }
            if s.stage = 2 then
              Outcome.ok { s1 with
                revealDeadline := u256 (env.blockNumber + s.revealSpan)
                stage := 3 }
            else Outcome.ok { s1 with stage := 4 }

/-- Function distribute of the richer variant, transcribed from the
commented-out block at src/borrar_2.rs lines 167-224 onto the storage layout
of that file (players slot i is player_addresses i, player_commitments i,
player_choices i, and erase clears those fields to 0); eth transfers are
modelled as always succeeding, as in the source which ignores their result.
It requires stage 4, or stage 3 with the block number past the reveal
deadline; pays deposit + bet to each player on identical choices, the full
winning amount (deposit + 2 * bet) to the opponent of a non-revealer, and on
a decided game the winning amount to the winner and the deposit back to the
loser; then clears both slots, zeroes the deadline and resets the stage. -/
def rps2_distribute (s : Rps2State) (blockNumber : Nat) :
    Outcome (Rps2State × List (Nat × Nat)) :=
  if s.stage ≠ 4 ∧ (s.stage ≠ 3 ∨ blockNumber ≤ s.revealDeadline) then
    Outcome.err "Invalid stage for distribute"
  else
    let winning_amount := u256 (s.deposit + u256 (s.bet * 2))
    match Choice.fromU256? (s.player_choices 0) with
    | Option.none => Outcome.fatal "Invalid choice"
    | Option.some c0 =>
      match Choice.fromU256? (s.player_choices 1) with
      | Option.none => Outcome.fatal "Invalid choice"
      | Option.some c1 =>
        let payoutsOpt : Option (Nat × Nat) :=
          if c0 = c1 then
            Option.some (u256 (s.deposit + s.bet), u256 (s.deposit + s.bet))
          else if c0 = Choice.none then Option.some (0, winning_amount)
          else if c1 = Choice.none then Option.some (winning_amount, 0)
          else
            match c0, c1 with
            | Choice.rock, Choice.scissors
            | Choice.paper, Choice.rock
            | Choice.scissors, Choice.paper =>
              Option.some (winning_amount, s.deposit)
            | Choice.rock, Choice.paper
            | Choice.paper, Choice.scissors
            | Choice.scissors, Choice.rock =>
              Option.some (s.deposit, winning_amount)
            | _, _ => Option.none
        match payoutsOpt with
        | Option.none => Outcome.err "Invalid choices"
        | Option.some (p0, p1) =>
          let transfers :=
            (if p0 > 0 then [(s.player_addresses 0, p0)] else []) ++
            (if p1 > 0 then [(s.player_addresses 1, p1)] else [])
          Outcome.ok
            ({ s with
                player_addresses := updMap (updMap s.player_addresses 0 0) 1 0
                player_commitments :=
                  updMap (updMap s.player_commitments 0 0) 1 0
                player_choices := updMap (updMap s.player_choices 0 0) 1 0
                revealDeadline := 0
                stage := 0 }, transfers)

/-- Success projection of an outcome. -/
def okOf {α : Type} : Outcome α → Option α
  | Outcome.ok a => Option.some a
  | Outcome.err _ => Option.none
  | Outcome.fatal _ => Option.none

/-- Revert-message projection of an outcome. -/
def errOf {α : Type} : Outcome α → Option String
  | Outcome.err m => Option.some m
  | Outcome.ok _ => Option.none
  | Outcome.fatal _ => Option.none

/-- Panic-message projection of an outcome. -/
def fatalOf {α : Type} : Outcome α → Option String
  | Outcome.fatal m => Option.some m
  | Outcome.ok _ => Option.none
  | Outcome.err _ => Option.none

/-- Stage of the state of a successful commit-reveal-contract call. -/
def stageOf2 (o : Outcome (Rps2State × List (Nat × Nat))) : Option Nat :=
  (okOf o).map (fun r => r.1.stage)

/-- Stage of the state of a successful reveal call. -/
def stageOfR (o : Outcome Rps2State) : Option Nat :=
  (okOf o).map (fun s => s.stage)

/-- Stage of the state of a successful entrypoint-contract call. -/
def stageOfL (o : Outcome (LibState × List (Nat × Nat))) : Option Nat :=
  (okOf o).map (fun r => r.1.stage)

/-- Transfers performed by a successful commit-reveal-contract call. -/
def transfersOf2 (o : Outcome (Rps2State × List (Nat × Nat))) :
    Option (List (Nat × Nat)) :=
  (okOf o).map (fun r => r.2)

/-- Transfers performed by a successful entrypoint-contract call. -/
def transfersOfL (o : Outcome (LibState × List (Nat × Nat))) :
    Option (List (Nat × Nat)) :=
  (okOf o).map (fun r => r.2)

/-- Total value moved out by a list of transfers. -/
def totalOut (l : List (Nat × Nat)) : Nat :=
  l.foldr (fun p a => p.2 + a) 0

/-- Total value a given address receives from a list of transfers. -/
def paidTo (addr : Nat) (l : List (Nat × Nat)) : Nat :=
  totalOut (l.filter (fun p => p.1 == addr))

/-- Total refund a commit call sends back to the caller. -/
def totalRefund (o : Outcome (Rps2State × List (Nat × Nat))) : Option Nat :=
  (transfersOf2 o).map totalOut

/-- Value a successful call retains in the contract: attached value minus
everything transferred out during the call. -/
def retainedBy (env : CallEnv) (o : Outcome (Rps2State × List (Nat × Nat))) :
    Option Nat :=
  (transfersOf2 o).map (fun l => env.value - totalOut l)

/-- Choice stored in slot 0 after a successful entrypoint call. -/
def choiceSlot0 (o : Outcome (LibState × List (Nat × Nat))) : Option Nat :=
  (okOf o).map (fun r => r.1.player_choices 0)

/-- Address stored in slot 1 after a successful commit-reveal call. -/
def addrSlot1 (o : Outcome (Rps2State × List (Nat × Nat))) : Option Nat :=
  (okOf o).map (fun r => r.1.player_addresses 1)

/-- Concrete injective stand-in for keccak256 over an address, used to
instantiate the reveal hash parameter in concrete runs. -/
def keccakModel (a : Nat) : Nat := a + 1000

/-- Run of the specification scenario on the commit-reveal contract:
new(bet 100, deposit 10, revealSpan 5); player 7 commits 110 with commitment
keccak(7); player 8 commits 110 with commitment keccak(8); 7 reveals Rock at
block 50; 8 reveals Scissors at block 51; distribute at block 52. -/
def c2Run : Option (Rps2State × List (Nat × Nat)) :=
  (okOf (rps2_commit (rps2_new zeroRps2 100 10 5) ⟨7, 110, 0⟩
      (keccakModel 7))).bind (fun r1 =>
  (okOf (rps2_commit r1.1 ⟨8, 110, 0⟩ (keccakModel 8))).bind (fun r2 =>
  (okOf (rps2_reveal keccakModel r2.1 ⟨7, 0, 50⟩ 1 123)).bind (fun s4 =>
  (okOf (rps2_reveal keccakModel s4 ⟨8, 0, 51⟩ 3 456)).bind (fun s5 =>
  okOf (rps2_distribute s5 52)))))

/-- Run for the reveal acceptance check: both players commit keccak of their
own address, then player 7 reveals Rock with the given blinding factor. -/
def c1Run (bf : Nat) : Option Rps2State :=
  (okOf (rps2_commit (rps2_new zeroRps2 100 10 5) ⟨7, 110, 0⟩
      (keccakModel 7))).bind (fun r1 =>
  (okOf (rps2_commit r1.1 ⟨8, 110, 0⟩ (keccakModel 8))).bind (fun r2 =>
  okOf (rps2_reveal keccakModel r2.1 ⟨7, 0, 50⟩ 1 bf)))

/-- Run on the entrypoint contract: new(bet 100), both players commit
choice 1 (Rock) with exactly the bet attached — a draw position. -/
def c3Run : Option (LibState × List (Nat × Nat)) :=
  (okOf (lib_commit (lib_new zeroLib 100) ⟨7, 100, 0⟩ 1)).bind (fun r1 =>
  okOf (lib_commit r1.1 ⟨8, 100, 0⟩ 1))

/-- Run on the entrypoint contract: player 7 commits the out-of-range
choice 4, player 8 commits choice 1. -/
def c5Run : Option (LibState × List (Nat × Nat)) :=
  (okOf (lib_commit (lib_new zeroLib 100) ⟨7, 100, 0⟩ 4)).bind (fun r1 =>
  okOf (lib_commit r1.1 ⟨8, 100, 0⟩ 1))

/-- Run on the commit-reveal contract: the same identity 7 commits in both
the FirstCommit and the SecondCommit stage. -/
def c8Run : Option (Rps2State × List (Nat × Nat)) :=
  (okOf (rps2_commit (rps2_new zeroRps2 100 10 5) ⟨7, 110, 0⟩ 77)).bind
    (fun r1 => okOf (rps2_commit r1.1 ⟨7, 110, 0⟩ 88))

/-- Entrypoint state with the lock set, stage 2 and a decided game (Rock
against Scissors), as reached by two commits followed by lock. -/
def c7s : LibState :=
  { zeroLib with
    bet := 100
    stage := 2
    locked := true
    player_choices := updMap (updMap zeroLib.player_choices 0 1) 1 3
    player_addresses := updMap (updMap zeroLib.player_addresses 0 7) 1 8 }

/-- Commit-reveal state in the SecondCommit stage with identity 7 occupying
slot 0, as reached by one commit from 7. -/
def c8s : Rps2State :=
  { rps2_new zeroRps2 100 10 5 with
    stage := 1
    player_addresses := updMap zeroRps2.player_addresses 0 7 }

end RPSModel


namespace RPSModel

/-- Claim C1 (code bug): the reveal acceptance check of src/borrar_2.rs
compares only keccak256 of the caller address with the stored commitment and
ignores both the revealed choice and the blinding factor, so from one and
the same stored commitment, reveals carrying the two different blinding
factors 123 and 999 are both accepted and both record the revealed choice —
acceptance is not the claimed equality of hash(choice, blindingFactor,
committer) with the commitment, under which a single commitment cannot open
with two blinding factors. -/
theorem C1_reveal_ignores_blinding :
    (c1Run 123).map (fun s => (s.player_choices 0, s.stage)) =
      Option.some (1, 3) ∧
    (c1Run 999).map (fun s => (s.player_choices 0, s.stage)) =
      Option.some (1, 3) := by
  exact ⟨rfl, rfl⟩

/-- Claim C2, counterexample: in the specification scenario the distribute
step pays player B (identity 8, the loser) a total of 10 — their own
deposit — and not the claimed 0. -/
theorem C2_counterexample_loser_paid :
    c2Run.map (fun r => paidTo 8 r.2) = Option.some 10 ∧
    c2Run.map (fun r => paidTo 8 r.2) ≠ Option.some 0 := by
  exact ⟨rfl, by decide⟩

/-- Claim C2, amended: in the scenario of initialize(bet 100, deposit 10,
revealWindow 5), commits of 110 by A and B, reveal Rock by A and Scissors by
B, the distribute step pays A exactly 210 (two bets plus the deposit), pays
B exactly 10 (their own deposit back), and resets the stage to
FirstCommit. -/
theorem C2_scenario_payouts :
    c2Run.map (fun r => (paidTo 7 r.2, paidTo 8 r.2, r.1.stage)) =
      Option.some (210, 10, 0) := by
  exact rfl

/-- Claim C3 (code bug): on a draw position — both players having committed
choice 1 (Rock) — the distribute function of the active entrypoint contract
src/lib.rs returns the revert message Draw instead of succeeding and paying
each party, leaving the escrowed funds stuck. -/
theorem C3_draw_is_error :
    c3Run.map (fun r => errOf (lib_distribute r.1)) =
      Option.some (Option.some "Draw") := by
  exact rfl

/-- Claim C4, counterexample: from a state with stage 3, the new function
resets the stage to 0 and the unlock function sets it to an arbitrary
supplied value, although neither is a completed Distribute step. -/
theorem C4_counterexample_stage_rewound :
    (rps2_new { zeroRps2 with stage := 3 } 100 10 5).stage = 0 ∧
    (rps2_unlock { zeroRps2 with stage := 3 } 1 (0, 0, 0) (0, 0, 0)).stage
      = 1 := by
  exact ⟨rfl, rfl⟩

/-- Claim C5 (code bug): the entrypoint commit stores the raw out-of-range
choice 4 without validation, and the subsequent distribute call hits the
panicking From conversion — the call aborts with the panic message instead
of returning an InvalidChoice error result. -/
theorem C5_out_of_range_choice_panics :
    c5Run.map (fun r => (r.1.player_choices 0, fatalOf (lib_distribute r.1)))
      = Option.some (4, Option.some "Invalid choice") := by
  exact rfl

/-- Claim C7, counterexample: with the locked flag set, the entrypoint
distribute still succeeds, transfers 200 to the winner and resets the stage
to 0 — a balance-mutating and stage-mutating operation succeeding under
lock. -/
theorem C7_counterexample_distribute_under_lock :
    c7s.locked = true ∧
    stageOfL (lib_distribute c7s) = Option.some 0 ∧
    transfersOfL (lib_distribute c7s) = Option.some [(7, 200)] := by
  exact ⟨rfl, rfl, rfl⟩

/-- Claim C8, counterexample: after identity 7 occupies slot 0, a second
commit from the same identity 7 succeeds, populates slot 1 with 7 and
advances the stage — there is no DuplicatePlayer rejection. -/
theorem C8_counterexample_duplicate_accepted :
    c8Run.map
        (fun r => (r.1.player_addresses 0, r.1.player_addresses 1, r.1.stage))
      = Option.some (7, 7, 2) := by
  exact rfl

/-- Claim C9, counterexample: the unlock snapshot import succeeds on a
contract whose locked flag is false, with the out-of-range stage 99, and
installs that stage and the slot data unvalidated. -/
theorem C9_counterexample_unlock_unchecked :
    zeroRps2.locked = false ∧
    (rps2_unlock zeroRps2 99 (1, 2, 3) (4, 5, 6)).stage = 99 ∧
    (rps2_unlock zeroRps2 99 (1, 2, 3) (4, 5, 6)).player_addresses 1 = 4 := by
  exact ⟨rfl, rfl, rfl⟩

/-- Helper: a successful commit advances the stage by exactly one; a failed
commit reverts and leaves no successful state. -/
theorem commit_stage_step (s : Rps2State) (env : CallEnv) (c : Nat) :
    stageOf2 (rps2_commit s env c) = Option.some (s.stage + 1) ∨
    stageOf2 (rps2_commit s env c) = Option.none := by
  simp only [rps2_commit]
  split
  · exact Or.inr rfl
  · split
    · rename_i hB
      split
      · exact Or.inr rfl
      · split
        · rename_i h0
          exact Or.inl (by simp [stageOf2, okOf, h0])
        · rename_i h0
          have h1 : s.stage = 1 := by
            rcases hB with h | h
            · exact absurd h h0
            · exact h
          exact Or.inl (by simp [stageOf2, okOf, h1])
    · exact Or.inr rfl

/-- Helper: a successful reveal advances the stage by exactly one (2 to 3,
or 3 to 4); a failed reveal reverts. -/
theorem reveal_stage_step (h : Nat → Nat) (s : Rps2State) (env : CallEnv)
    (c bf : Nat) :
    stageOfR (rps2_reveal h s env c bf) = Option.some (s.stage + 1) ∨
    stageOfR (rps2_reveal h s env c bf) = Option.none := by
  simp only [rps2_reveal]
  split
  · exact Or.inr rfl
  · split
    · exact Or.inr rfl
    · rename_i hst
      split
      · exact Or.inr rfl
      · split
        · exact Or.inr rfl
        · split
          · exact Or.inr rfl
          · split
            · exact Or.inr rfl
            · split
              · rename_i h2
                exact Or.inl (by simp [stageOfR, okOf, h2])
              · rename_i h2
                have h3 : s.stage = 3 := by
                  rcases Decidable.not_and_iff_or_not.mp hst with hh | hh
                  · exact absurd (Decidable.not_not.mp hh).symm
                      (fun hx => h2 hx.symm)
                  · exact Decidable.not_not.mp hh
                exact Or.inl (by simp [stageOfR, okOf, h3])

/-- Helper: a successful distribute resets the stage to 0; a failed one
reverts. -/
theorem distribute_stage_step (s : Rps2State) (b : Nat) :
    stageOf2 (rps2_distribute s b) = Option.some 0 ∨
    stageOf2 (rps2_distribute s b) = Option.none := by
  simp only [rps2_distribute]
  split
  · exact Or.inr rfl
  · split
    · exact Or.inr rfl
    · split
      · exact Or.inr rfl
      · split
        · exact Or.inr rfl
        · exact Or.inl (by simp [stageOf2, okOf])

/-- Claim C4, amended: in the commit-reveal contract every successful commit
or reveal advances the stage by exactly one step of the fixed sequence and
every failed call reverts it unchanged, and a successful distribute resets
it to 0 (FirstCommit); however the new function also resets the stage to 0
from any state, and the unlock function sets it to the caller-supplied
value, so the reset-only-via-Distribute part of the claim fails for those
two operations. -/
theorem C4_stage_discipline :
    (∀ s env c, stageOf2 (rps2_commit s env c) = Option.some (s.stage + 1) ∨
      stageOf2 (rps2_commit s env c) = Option.none) ∧
    (∀ h s env c bf,
      stageOfR (rps2_reveal h s env c bf) = Option.some (s.stage + 1) ∨
      stageOfR (rps2_reveal h s env c bf) = Option.none) ∧
    (∀ s b, stageOf2 (rps2_distribute s b) = Option.some 0 ∨
      stageOf2 (rps2_distribute s b) = Option.none) ∧
    (∀ s b d r, (rps2_new s b d r).stage = 0) ∧
    (∀ s st p1 p2, (rps2_unlock s st p1 p2).stage = st) :=
  ⟨commit_stage_step, reveal_stage_step, distribute_stage_step,
   fun _ _ _ _ => rfl, fun _ _ _ _ => rfl⟩

/-- Claim C6: in a commit stage of the unlocked commit-reveal contract, a
commit whose attached value is below bet + deposit fails with the
insufficient-funds error; otherwise it succeeds, refunds exactly the excess
over bet + deposit to the caller during the same call, and retains exactly
bet + deposit in escrow. -/
theorem C6_commit_escrow (s : Rps2State) (env : CallEnv) (c : Nat)
    (hl : s.locked = false) (hs : s.stage = 0 ∨ s.stage = 1)
    (hb : s.bet + s.deposit < U256LIM) :
    (env.value < s.bet + s.deposit →
      rps2_commit s env c = Outcome.err "Insufficient funds committed") ∧
    (s.bet + s.deposit ≤ env.value →
      totalRefund (rps2_commit s env c) =
        Option.some (env.value - (s.bet + s.deposit)) ∧
      retainedBy env (rps2_commit s env c) =
        Option.some (s.bet + s.deposit)) := by
  have hmod : u256 (s.bet + s.deposit) = s.bet + s.deposit :=
    Nat.mod_eq_of_lt hb
  constructor
  · intro hv
    simp [rps2_commit, hl, hs, hmod, hv]
  · intro hge
    have hnv : ¬ env.value < s.bet + s.deposit := Nat.not_lt.mpr hge
    simp only [rps2_commit, hl, hmod]
    simp only [Bool.false_eq_true, if_false, if_pos hs, if_neg hnv]
    split <;> split <;>
      simp_all [totalRefund, transfersOf2, okOf, totalOut, retainedBy] <;>
      omega

/-- Witness for claim C6 at the concrete scenario of the specification: bet
100, deposit 10, a commit of 150 refunds 40 and retains exactly 110. -/
theorem C6_commit_escrow_witness :
    totalRefund (rps2_commit (rps2_new zeroRps2 100 10 5) ⟨7, 150, 0⟩ 0) =
      Option.some 40 ∧
    retainedBy ⟨7, 150, 0⟩
        (rps2_commit (rps2_new zeroRps2 100 10 5) ⟨7, 150, 0⟩ 0) =
      Option.some 110 := by
  have h := (C6_commit_escrow (rps2_new zeroRps2 100 10 5) ⟨7, 150, 0⟩ 0
    rfl (Or.inl rfl) (by decide)).2 (by decide)
  exact ⟨h.1, h.2⟩


/-- Claim C7, amended: while the locked flag is true, both commit variants
and reveal fail with the lock error and change nothing; but the entrypoint
distribute performs no lock check — a locked state exists in which it
succeeds and resets the stage — and the new functions reset the stage and
clear the lock unconditionally. -/
theorem C7_lock_gate :
    (∀ s env c, s.locked = true →
      rps2_commit s env c = Outcome.err "Contract is locked") ∧
    (∀ h s env c bf, s.locked = true →
      rps2_reveal h s env c bf = Outcome.err "Contract is locked") ∧
    (∀ s env c, s.locked = true →
      lib_commit s env c = Outcome.err "Contract is locked") ∧
    (∀ s b, (lib_new s b).stage = 0 ∧ (lib_new s b).locked = false) ∧
    (∃ s : LibState, s.locked = true ∧
      stageOfL (lib_distribute s) = Option.some 0) := by
  refine ⟨?_, ?_, ?_, fun s b => ⟨rfl, rfl⟩, ⟨c7s, rfl, by decide⟩⟩
  · intro s env c h
    simp [rps2_commit, h]
  · intro hf s env c bf h
    simp [rps2_reveal, h]
  · intro s env c h
    simp [lib_commit, h]

/-- Witness for claim C7 at concrete locked states: commit of either
contract and reveal all fail with the lock error. -/
theorem C7_lock_gate_witness :
    rps2_commit (rps2_lock zeroRps2) ⟨7, 110, 0⟩ 0 =
      Outcome.err "Contract is locked" ∧
    rps2_reveal keccakModel (rps2_lock zeroRps2) ⟨7, 0, 0⟩ 1 0 =
      Outcome.err "Contract is locked" ∧
    lib_commit { zeroLib with locked := true } ⟨7, 0, 0⟩ 1 =
      Outcome.err "Contract is locked" :=
  ⟨C7_lock_gate.1 (rps2_lock zeroRps2) ⟨7, 110, 0⟩ 0 rfl,
   C7_lock_gate.2.1 keccakModel (rps2_lock zeroRps2) ⟨7, 0, 0⟩ 1 0 rfl,
   C7_lock_gate.2.2.1 { zeroLib with locked := true } ⟨7, 0, 0⟩ 1 rfl⟩

/-- Claim C8, amended: in the SecondCommit stage a commit from the identity
already occupying slot 0 is accepted like any other commit — it populates
slot 1 with that same identity and advances the stage to 2 (FirstReveal);
the code has no DuplicatePlayer check. -/
theorem C8_duplicate_commit_accepted (s : Rps2State) (env : CallEnv)
    (c : Nat) (hl : s.locked = false) (hs : s.stage = 1)
    (hsender : env.sender = s.player_addresses 0)
    (hv : u256 (s.bet + s.deposit) ≤ env.value) :
    addrSlot1 (rps2_commit s env c) = Option.some (s.player_addresses 0) ∧
    stageOf2 (rps2_commit s env c) = Option.some 2 := by
  have hnv : ¬ env.value < u256 (s.bet + s.deposit) := Nat.not_lt.mpr hv
  simp [rps2_commit, hl, hs, hnv, addrSlot1, stageOf2, okOf, updMap,
    hsender]

/-- Witness for claim C8: from the concrete SecondCommit state with
identity 7 in slot 0, a commit by 7 succeeds, puts 7 into slot 1 and
advances the stage to 2. -/
theorem C8_duplicate_commit_accepted_witness :
    addrSlot1 (rps2_commit c8s ⟨7, 110, 0⟩ 88) = Option.some 7 ∧
    stageOf2 (rps2_commit c8s ⟨7, 110, 0⟩ 88) = Option.some 2 := by
  have h := C8_duplicate_commit_accepted c8s ⟨7, 110, 0⟩ 88 rfl rfl rfl
    (by decide)
  exact ⟨h.1, h.2⟩

/-- Claim C9, amended: the unlock snapshot import succeeds unconditionally —
it never consults the locked flag and validates nothing — and installs the
supplied stage and per-slot address, commitment and choice data verbatim
while clearing the lock. -/
theorem C9_unlock_overwrites_unvalidated :
    ∀ (s : Rps2State) (st : Nat) (p1 p2 : Nat × Nat × Nat),
      (rps2_unlock s st p1 p2).locked = false ∧
      (rps2_unlock s st p1 p2).stage = st ∧
      (rps2_unlock s st p1 p2).player_addresses 0 = p1.1 ∧
      (rps2_unlock s st p1 p2).player_addresses 1 = p2.1 ∧
      (rps2_unlock s st p1 p2).player_commitments 0 = p1.2.1 ∧
      (rps2_unlock s st p1 p2).player_commitments 1 = p2.2.1 ∧
      (rps2_unlock s st p1 p2).player_choices 0 = p1.2.2 ∧
      (rps2_unlock s st p1 p2).player_choices 1 = p2.2.2 :=
  fun _ _ _ _ => ⟨rfl, rfl, rfl, rfl, rfl, rfl, rfl, rfl⟩

/-- Claim C10: during FirstCommit the entrypoint commit writes the raw
choice argument unmodified into player_choices[0], so two successful runs
differing only in the first player choice leave observably different public
storage — the choice is not hidden behind a commitment. -/
theorem C10_choice_stored_in_clear (s : LibState) (env : CallEnv)
    (c1 c2 : Nat) (hl : s.locked = false) (hs : s.stage = 0)
    (hv : s.bet ≤ env.value) (hne : c1 ≠ c2) :
    choiceSlot0 (lib_commit s env c1) = Option.some c1 ∧
    choiceSlot0 (lib_commit s env c2) = Option.some c2 ∧
    choiceSlot0 (lib_commit s env c1) ≠ choiceSlot0 (lib_commit s env c2) := by
  have hnv : ¬ env.value < s.bet := Nat.not_lt.mpr hv
  have h1 : choiceSlot0 (lib_commit s env c1) = Option.some c1 := by
    simp [lib_commit, hl, hs, hnv, choiceSlot0, okOf, updMap]
  have h2 : choiceSlot0 (lib_commit s env c2) = Option.some c2 := by
    simp [lib_commit, hl, hs, hnv, choiceSlot0, okOf, updMap]
  refine ⟨h1, h2, ?_⟩
  rw [h1, h2]
  intro hcontra
  exact hne (Option.some.inj hcontra)

/-- Witness for claim C10: commits of the choices 1 and 2 on the fresh
contract store those values in the clear and yield different storage. -/
theorem C10_choice_stored_in_clear_witness :
    choiceSlot0 (lib_commit (lib_new zeroLib 100) ⟨7, 110, 0⟩ 1) =
      Option.some 1 ∧
    choiceSlot0 (lib_commit (lib_new zeroLib 100) ⟨7, 110, 0⟩ 2) =
      Option.some 2 ∧
    choiceSlot0 (lib_commit (lib_new zeroLib 100) ⟨7, 110, 0⟩ 1) ≠
      choiceSlot0 (lib_commit (lib_new zeroLib 100) ⟨7, 110, 0⟩ 2) :=
  C10_choice_stored_in_clear (lib_new zeroLib 100) ⟨7, 110, 0⟩ 1 2 rfl rfl
    (by decide) (by decide)

end RPSModel
